import Mathlib

/-!
Formal model of `Migration.py` (BMC Track-It! to JIRA migration script).

The script maps legacy work-order rows to JIRA issue payloads
(`get_database_cursor`), partitions candidate ids against the ids already
present in JIRA (`mainloop`, lines 347-356), migrates each pending record
(create issue, transfer attachments, annotate and close the legacy record,
lines 360-396), re-attempts closure for stuck records (lines 399-415), and
backfills due dates using pandas business-day offsets (lines 417-436).

Pure data transformations are modelled as Lean functions; the effectful
parts of `mainloop` are modelled as functions from an environment (the
responses of the external systems) to the list of emitted operations.
-/

namespace Migration

/-- One row of the legacy `tasks` table, in the column order of the SQL
query documented in `mainloop`.  Fields that `get_database_cursor` guards
against `None` are modelled as `Option String`. -/
structure LegacyRow where
  workorder_number : Int
  priority : String
  request_date : String
  summary : String
  requester : String
  assignee_username : String
  due_date : String
  modify_date : String
  dept : Option String
  wo_type : String
  subtype : Option String
  category : Option String
  assigned_technician : String
  description : Option String
  notes : String
  company : Option String
deriving DecidableEq

/-- The JIRA issue-creation payload built by `get_database_cursor`
(lines 200-239).  `customfield_11701` and `customfield_11800` are
single-element JSON lists in the source; we store the element.
`customfield_11900` is the two-element list `[subtype, category]`. -/
structure IssueFields where
  project_key : String
  summary : String
  description : String
  customfield_10411 : Int
  customfield_10420 : String
  duedate : String
  customfield_11000 : String
  customfield_11701 : String
  customfield_11900 : Option String × String
  customfield_11800 : Option String
  customfield_10300_value : String
  issuetype_name : String
  assignee_key : String
  assignee_name : String
  reporter_key : String
  reporter_name : String
  priority_name : String
deriving DecidableEq

/-- Python's `s.replace(" ", "_")` for the single-character pattern used by
the script: every space character becomes an underscore. -/
def replace_spaces (s : String) : String :=
  String.mk (s.data.map (fun c => if c = ' ' then '_' else c))

/-- The per-field normalization `get_database_cursor` applies to
`subtype`, `category` and `company` (lines 181-189):
`if x is not None: if len(x) > 0: x = x.replace(" ", "_")`. -/
def normalize_field (o : Option String) : Option String :=
  match o with
  | none => none
  | some s => if s.length > 0 then some (replace_spaces s) else some s

/-- Loop body of `get_database_cursor` (lines 152-240): maps one legacy row
to a JIRA issue payload.  The issue type is chosen from the *original*
priority (lines 172-179) before the priority collapse (lines 191-192). -/
def map_row (jira_key : String) (r : LegacyRow) : IssueFields :=
  let jira_issuetype :=
    if r.priority = "Project" then "Project"
    else if r.priority = "Ongoing Support" then "Service Management"
    else if r.priority = "Change Request" ∧ jira_key = "CRQ" then "Change Request"
    else "Incident Management"
  let subtype := normalize_field r.subtype
  let category := normalize_field r.category
  let company := normalize_field r.company
  let priority :=
    if r.priority = "Ongoing Support" ∨ r.priority = "Change Request" ∨ r.priority = "Project"
    then "Routine" else r.priority
  let category := match category with | none => "" | some s => s
  let dept := match r.dept with | none => "" | some s => s
  let description := match r.description with | none => "" | some s => s
  { project_key := jira_key
    summary := r.summary
    description := description
    customfield_10411 := r.workorder_number
    customfield_10420 := r.request_date
    duedate := r.due_date
    customfield_11000 := r.requester
    customfield_11701 := dept
    customfield_11900 := (subtype, category)
    customfield_11800 := company
    customfield_10300_value := r.wo_type
    issuetype_name := jira_issuetype
    assignee_key := r.assignee_username
    assignee_name := r.assignee_username
    reporter_key := "api"
    reporter_name := "api"
    priority_name := priority }

/-- `get_database_cursor`: all rows of the query result, mapped. -/
def get_database_cursor (jira_key : String) (rows : List LegacyRow) : List IssueFields :=
  rows.map (map_row jira_key)

theorem replace_spaces_of_length_zero (s : String) (h : s.length = 0) :
    replace_spaces s = s := by
  cases s with
  | mk data =>
    simp [String.length] at h
    simp [replace_spaces, h]

theorem normalize_field_eq_map (o : Option String) :
    normalize_field o = o.map replace_spaces := by
  cases o with
  | none => rfl
  | some s =>
    simp only [normalize_field, Option.map_some]
    by_cases h : s.length > 0
    · simp [h]
    · simp [h, replace_spaces_of_length_zero s (by omega)]

theorem mem_replace_spaces (s : String) : ' ' ∉ (replace_spaces s).data := by
  simp only [replace_spaces, List.mem_map]
  rintro ⟨c, -, hc⟩
  by_cases h : c = ' ' <;> simp [h] at hc

/-- Claim C4: for every legacy row, a priority of "Ongoing Support",
"Change Request" or "Project" is collapsed to payload priority "Routine";
any other priority value passes through to the payload unchanged. -/
theorem priority_collapse (jira_key : String) (r : LegacyRow) :
    (map_row jira_key r).priority_name =
      if r.priority = "Ongoing Support" ∨ r.priority = "Change Request" ∨ r.priority = "Project"
      then "Routine" else r.priority := rfl

/-- Claim C5: the payload's issue type is "Project" for priority "Project",
"Service Management" for priority "Ongoing Support", "Change Request" for
priority "Change Request" with the reserved project key "CRQ", and
"Incident Management" for every other combination. -/
theorem issue_type_mapping (jira_key : String) (r : LegacyRow) :
    (map_row jira_key r).issuetype_name =
      if r.priority = "Project" then "Project"
      else if r.priority = "Ongoing Support" then "Service Management"
      else if r.priority = "Change Request" ∧ jira_key = "CRQ" then "Change Request"
      else "Incident Management" := rfl

/-- Claim C6: for every legacy row, the categorical fields subtype,
category and company have every space replaced with an underscore in the
payload; missing values map to the documented defaults (absence for
subtype and company; empty string for category, department and
description), totally (no failure on null input); and the space
replacement leaves no space character behind. -/
theorem categorical_field_normalization (jira_key : String) (r : LegacyRow) :
    (map_row jira_key r).customfield_11900.1 = r.subtype.map replace_spaces ∧
    (map_row jira_key r).customfield_11900.2 = (r.category.map replace_spaces).getD "" ∧
    (map_row jira_key r).customfield_11800 = r.company.map replace_spaces ∧
    (map_row jira_key r).customfield_11701 = r.dept.getD "" ∧
    (map_row jira_key r).description = r.description.getD "" ∧
    ∀ s : String, ' ' ∉ (replace_spaces s).data := by
  refine ⟨?_, ?_, ?_, ?_, ?_, mem_replace_spaces⟩
  · simp [map_row, normalize_field_eq_map]
  · simp only [map_row, normalize_field_eq_map]
    cases r.category <;> simp
  · simp [map_row, normalize_field_eq_map]
  · simp only [map_row]
    cases r.dept <;> simp
  · simp only [map_row]
    cases r.description <;> simp

/-! ## Migration-State Detector (`mainloop`, lines 347-356) -/

/-- `trackit_ids_trackit`: the candidate legacy ids, read back from the
mapped payloads (line 347). -/
def trackit_ids_trackit (database_full_output : List IssueFields) : List Int :=
  database_full_output.map (fun x => x.customfield_10411)

/-- `trackit_ids_jira` (lines 351-353): the legacy-id cross-references of
the issues already in JIRA, dropping issues whose cross-reference field is
null (`str(...) != 'None'`). -/
def trackit_ids_jira (issues : List (Option Int)) : List Int :=
  issues.filterMap (fun v => v)

/-- `invalid_ids` (line 354): candidate ids that already have a JIRA
issue. -/
def invalid_ids (candidates jira_ids : List Int) : List Int :=
  candidates.filter (fun x => jira_ids.contains x)

/-- `database_full_output_valid` (lines 355-356): payloads whose legacy id
has no JIRA issue yet. -/
def database_full_output_valid (database_full_output : List IssueFields)
    (invalid : List Int) : List IssueFields :=
  database_full_output.filter (fun x => !(invalid.contains x.customfield_10411))

theorem contains_iff_mem (l : List Int) (a : Int) : l.contains a = true ↔ a ∈ l := by
  simp [List.contains]

theorem not_contains_iff_not_mem (l : List Int) (a : Int) :
    (!l.contains a) = true ↔ a ∉ l := by
  simp [List.contains]

/-- Claim C1: with candidate set C (the legacy ids of the query output) and
cross-reference set X (the legacy ids already in JIRA), the detector's
`pending` ids are exactly C \ X, its `stuck` ids are exactly C ∩ X, the two
are disjoint, and their union is exactly C. -/
theorem detector_partitions_candidates (database_full_output : List IssueFields)
    (issues : List (Option Int)) (i : Int) :
    (i ∈ trackit_ids_trackit (database_full_output_valid database_full_output
        (invalid_ids (trackit_ids_trackit database_full_output) (trackit_ids_jira issues))) ↔
      i ∈ trackit_ids_trackit database_full_output ∧ i ∉ trackit_ids_jira issues) ∧
    (i ∈ invalid_ids (trackit_ids_trackit database_full_output) (trackit_ids_jira issues) ↔
      i ∈ trackit_ids_trackit database_full_output ∧ i ∈ trackit_ids_jira issues) ∧
    ¬ (i ∈ trackit_ids_trackit (database_full_output_valid database_full_output
          (invalid_ids (trackit_ids_trackit database_full_output) (trackit_ids_jira issues))) ∧
       i ∈ invalid_ids (trackit_ids_trackit database_full_output) (trackit_ids_jira issues)) ∧
    (i ∈ trackit_ids_trackit database_full_output ↔
      i ∈ trackit_ids_trackit (database_full_output_valid database_full_output
          (invalid_ids (trackit_ids_trackit database_full_output) (trackit_ids_jira issues))) ∨
      i ∈ invalid_ids (trackit_ids_trackit database_full_output) (trackit_ids_jira issues)) := by
  have hinv : ∀ j : Int,
      j ∈ invalid_ids (trackit_ids_trackit database_full_output) (trackit_ids_jira issues) ↔
        j ∈ trackit_ids_trackit database_full_output ∧ j ∈ trackit_ids_jira issues := by
    intro j
    simp [invalid_ids, List.mem_filter, contains_iff_mem]
  have hpend : ∀ j : Int,
      j ∈ trackit_ids_trackit (database_full_output_valid database_full_output
          (invalid_ids (trackit_ids_trackit database_full_output) (trackit_ids_jira issues))) ↔
        j ∈ trackit_ids_trackit database_full_output ∧ j ∉ trackit_ids_jira issues := by
    intro j
    simp only [trackit_ids_trackit, database_full_output_valid, List.mem_map, List.mem_filter]
    constructor
    · rintro ⟨x, ⟨hx, hp⟩, rfl⟩
      rw [not_contains_iff_not_mem] at hp
      have hp' : x.customfield_10411 ∉
          invalid_ids (trackit_ids_trackit database_full_output) (trackit_ids_jira issues) := hp
      rw [hinv] at hp'
      refine ⟨⟨x, hx, rfl⟩, fun hj => hp' ⟨?_, hj⟩⟩
      simp only [trackit_ids_trackit, List.mem_map]
      exact ⟨x, hx, rfl⟩
    · rintro ⟨⟨x, hx, rfl⟩, hj⟩
      refine ⟨x, ⟨hx, ?_⟩, rfl⟩
      rw [not_contains_iff_not_mem]
      show x.customfield_10411 ∉
          invalid_ids (trackit_ids_trackit database_full_output) (trackit_ids_jira issues)
      rw [hinv]
      exact fun hc => hj hc.2
  refine ⟨hpend i, hinv i, ?_, ?_⟩
  · rintro ⟨h1, h2⟩
    exact ((hpend i).1 h1).2 ((hinv i).1 h2).2
  · constructor
    · intro hc
      by_cases hj : i ∈ trackit_ids_jira issues
      · exact Or.inr ((hinv i).2 ⟨hc, hj⟩)
      · exact Or.inl ((hpend i).2 ⟨hc, hj⟩)
    · rintro (h | h)
      · exact ((hpend i).1 h).1
      · exact ((hinv i).1 h).1

/-! ## Transfer Orchestrator and Stuck-Record Reconciler as an effect trace
(`mainloop`, lines 358-415) -/

/-- An operation performed by `mainloop` against the external systems. -/
inductive Event where
  | authenticate : Event
  | createIssue : Int → Event
  | uploadAttachment : Int → String → String → Event
  | addNote : Int → String → Event
  | closeWorkOrder : Int → String → Event
  | logInfo : String → Event
  | logError : String → Event
deriving DecidableEq

/-- Responses of the external collaborators during one run:
`create` models `post_request` on the issue-creation endpoint (`Except.error`
is the `HTTPError` handled at lines 374-378), `store` models the attachment
directory tree (`None` when `os.path.isdir` is false), `uploadResp` models
the response text of `post_file_request` (returned, never inspected), and
`lookupKey` models the first search result of the stuck-id query
(lines 405-410). -/
structure Env where
  create : IssueFields → Except String String
  store : Int → Option (List String)
  uploadResp : String → String → String
  lookupKey : Int → String

/-- `import_attachments` (lines 263-281): if a folder named after the legacy
id exists under `attachment_folder`, upload each file in it; otherwise do
nothing.  The upload response is discarded, as in the source. -/
def import_attachments (env : Env) (trackit_id : Int) (jira_rest_call : String)
    (attachment_folder : String) : List Event :=
  match env.store trackit_id with
  | none => []
  | some files =>
      files.map (fun file =>
        Event.uploadAttachment trackit_id jira_rest_call
          (attachment_folder ++ "\\" ++ toString trackit_id ++ "\\" ++ file))

/-- Body of the pending-record loop (`mainloop`, lines 361-396) *as its
handler is written*: log, get a Track-It! key, POST the issue; on a caught
submission failure log the failure with the legacy id and continue; on
success derive the links, transfer attachments, add a note to the legacy
record and close it.  Caution: the `except HTTPError` clause at line 374
names `urllib.error.HTTPError` (imported at line 21), which the
`requests`-based `post_request` never raises, so in the source this error
branch is dead code — see `pendingLoopActual` for the realizable behavior
of a submission failure.  The theorems proved over `processRecord`
(`close_only_after_creation`, `attachment_failures_never_block_closure`)
hold under either reading: a record whose submission fails emits no
note/close/upload either way. -/
def processRecord (env : Env) (jira_server_address attachment_folder : String)
    (data : IssueFields) : List Event :=
  Event.logInfo ("Moving workorders to Jira:" ++ toString data.customfield_10411) ::
  Event.authenticate ::
  Event.createIssue data.customfield_10411 ::
  match env.create data with
  | Except.error e =>
      [Event.logError (e ++ ": " ++ toString data.customfield_10411)]
  | Except.ok key =>
      let jira_link := "http://" ++ jira_server_address ++ "/browse/" ++ key
      let jira_attachment_link :=
        "http://" ++ jira_server_address ++ "/rest/api/2/issue/" ++ key ++ "/attachments"
      Event.logInfo ("Successfully migrated to Jira at: " ++ jira_attachment_link) ::
      (import_attachments env data.customfield_10411 jira_attachment_link attachment_folder ++
        [Event.addNote data.customfield_10411 jira_link,
         Event.closeWorkOrder data.customfield_10411 jira_link])

/-- Body of the stuck-record loop (`mainloop`, lines 401-415): get a
Track-It! key, look up the existing JIRA issue for the legacy id, add a
note and close the legacy record. -/
def processStuck (env : Env) (jira_server_address : String) (keys : Int) : List Event :=
  let jira_link := "http://" ++ jira_server_address ++ "/browse/" ++ env.lookupKey keys
  [Event.authenticate,
   Event.addNote keys jira_link,
   Event.closeWorkOrder keys jira_link]

/-- Events of the pending-record loop, in record order. -/
def pendingTrace (env : Env) (jira_server_address attachment_folder : String) :
    List IssueFields → List Event
  | [] => []
  | d :: rest =>
      processRecord env jira_server_address attachment_folder d ++
        pendingTrace env jira_server_address attachment_folder rest

/-- Events of the stuck-record loop, in id order. -/
def stuckTrace (env : Env) (jira_server_address : String) : List Int → List Event
  | [] => []
  | k :: rest => processStuck env jira_server_address k ++ stuckTrace env jira_server_address rest

/-- Events of the migration part of `mainloop` (lines 358-415): the pending
loop over `database_full_output_valid` followed by the stuck loop over
`invalid_ids`. -/
def migrationTrace (env : Env) (jira_server_address attachment_folder : String)
    (database_full_output : List IssueFields) (jira_ids : List Int) : List Event :=
  pendingTrace env jira_server_address attachment_folder
      (database_full_output_valid database_full_output
        (invalid_ids (trackit_ids_trackit database_full_output) jira_ids)) ++
    stuckTrace env jira_server_address
      (invalid_ids (trackit_ids_trackit database_full_output) jira_ids)

theorem mem_pendingTrace (env : Env) (jsa af : String) (l : List IssueFields) (e : Event) :
    e ∈ pendingTrace env jsa af l ↔ ∃ d ∈ l, e ∈ processRecord env jsa af d := by
  induction l with
  | nil => simp [pendingTrace]
  | cons d rest ih => simp [pendingTrace, ih, List.mem_append, or_and_right, exists_or]

theorem mem_stuckTrace (env : Env) (jsa : String) (l : List Int) (e : Event) :
    e ∈ stuckTrace env jsa l ↔ ∃ k ∈ l, e ∈ processStuck env jsa k := by
  induction l with
  | nil => simp [stuckTrace]
  | cons k rest ih => simp [stuckTrace, ih, List.mem_append, or_and_right, exists_or]

theorem close_not_mem_import_attachments (env : Env) (tid : Int) (url af : String)
    (i : Int) (link : String) :
    Event.closeWorkOrder i link ∉ import_attachments env tid url af := by
  unfold import_attachments
  cases env.store tid with
  | none => simp
  | some files => simp [List.mem_map]

theorem close_mem_processRecord (env : Env) (jsa af : String) (d : IssueFields)
    (i : Int) (link : String)
    (h : Event.closeWorkOrder i link ∈ processRecord env jsa af d) :
    d.customfield_10411 = i ∧ ∃ key, env.create d = Except.ok key := by
  cases hc : env.create d with
  | error e =>
      simp [processRecord, hc] at h
  | ok key =>
      refine ⟨?_, key, rfl⟩
      simp only [processRecord, hc, List.mem_cons, List.mem_append, List.not_mem_nil,
        or_false] at h
      rcases h with h | h | h | h | h | h | h
      · simp at h
      · simp at h
      · simp at h
      · simp at h
      · exact absurd h (close_not_mem_import_attachments env d.customfield_10411 _ af i link)
      · simp at h
      · simp only [Event.closeWorkOrder.injEq] at h
        exact h.1.symm

theorem close_mem_processStuck (env : Env) (jsa : String) (k i : Int) (link : String)
    (h : Event.closeWorkOrder i link ∈ processStuck env jsa k) : i = k := by
  simp only [processStuck, List.mem_cons, List.not_mem_nil] at h
  rcases h with h | h | h | h
  · cases h
  · cases h
  · cases h; rfl
  · cases h

/-- Claim C2: in one run, a legacy record is closed only if its JIRA issue
was successfully created in the pending branch, or its id already had a
JIRA cross-reference (stuck branch); and for a record whose creation
fails, no close operation is emitted while processing that record. -/
theorem close_only_after_creation (env : Env) (jsa af : String)
    (database_full_output : List IssueFields) (issues : List (Option Int))
    (i : Int) (link : String) :
    (Event.closeWorkOrder i link ∈
        migrationTrace env jsa af database_full_output (trackit_ids_jira issues) →
      (∃ r ∈ database_full_output_valid database_full_output
            (invalid_ids (trackit_ids_trackit database_full_output) (trackit_ids_jira issues)),
          r.customfield_10411 = i ∧ ∃ key, env.create r = Except.ok key) ∨
        some i ∈ issues) ∧
    (∀ r : IssueFields, ∀ e : String, env.create r = Except.error e →
      ∀ l : String, Event.closeWorkOrder r.customfield_10411 l ∉ processRecord env jsa af r) := by
  constructor
  · intro h
    simp only [migrationTrace, List.mem_append, mem_pendingTrace, mem_stuckTrace] at h
    rcases h with ⟨d, hd, hmem⟩ | ⟨k, hk, hmem⟩
    · obtain ⟨hid, key, hkey⟩ := close_mem_processRecord env jsa af d i link hmem
      exact Or.inl ⟨d, hd, hid, key, hkey⟩
    · right
      have hik := close_mem_processStuck env jsa k i link hmem
      subst hik
      have hk2 : i ∈ trackit_ids_jira issues := by
        simp only [invalid_ids, List.mem_filter] at hk
        exact (contains_iff_mem _ _).1 hk.2
      simp only [trackit_ids_jira, List.mem_filterMap] at hk2
      obtain ⟨v, hv, hvi⟩ := hk2
      subst hvi
      exact hv
  · intro r e he l hmem
    simp [processRecord, he] at hmem

/-- The pending-record loop (lines 360-396) with its `except HTTPError`
clause modelled as the dead code it is in the source: `HTTPError` there is
`urllib.error.HTTPError` (line 21), while `post_request` (lines 31-47)
calls `requests.post` and `response.json()`.  A transport failure raises a
`requests.exceptions` class, and an HTTP-level failure returns JIRA's
error JSON, which has no `"key"` entry, so line 383 raises `KeyError` —
`urllib.error.HTTPError` is raised on neither path.  Either way
`env.create`'s error is an exception the handler does not catch: the loop
stops there, no error log names the legacy id, the remaining records (and
the stuck loop and the due-date sweep after them) are skipped for that
run, and the exception reaches the catch-all in `__main__`
(lines 476-482), which logs "Unknown Error" without the id.  Returns the
events emitted before the escape and the uncaught exception, if any. -/
def pendingLoopActual (env : Env) (jira_server_address attachment_folder : String) :
    List IssueFields → List Event × Option String
  | [] => ([], none)
  | d :: rest =>
      match env.create d with
      | Except.error e =>
          ([Event.logInfo ("Moving workorders to Jira:" ++ toString d.customfield_10411),
            Event.authenticate,
            Event.createIssue d.customfield_10411], some e)
      | Except.ok key =>
          let jira_link := "http://" ++ jira_server_address ++ "/browse/" ++ key
          let jira_attachment_link :=
            "http://" ++ jira_server_address ++ "/rest/api/2/issue/" ++ key ++ "/attachments"
          let r := pendingLoopActual env jira_server_address attachment_folder rest
          (Event.logInfo ("Moving workorders to Jira:" ++ toString d.customfield_10411) ::
           Event.authenticate ::
           Event.createIssue d.customfield_10411 ::
           Event.logInfo ("Successfully migrated to Jira at: " ++ jira_attachment_link) ::
           (import_attachments env d.customfield_10411 jira_attachment_link
              attachment_folder ++
            [Event.addNote d.customfield_10411 jira_link,
             Event.closeWorkOrder d.customfield_10411 jira_link] ++ r.1), r.2)

/-- Claim C9: when creation succeeded, the note and close operations on the
legacy record are always the final two operations for that record,
whatever the attachment store contains and whatever the upload endpoint
answers (upload responses are discarded); an absent attachment folder
produces no upload operation and is not an error; and processing always
continues with the remaining records. -/
theorem attachment_failures_never_block_closure (env : Env) (jsa af : String)
    (d : IssueFields) (key : String) (rest : List IssueFields)
    (h : env.create d = Except.ok key) :
    (∃ pre, processRecord env jsa af d =
        pre ++ [Event.addNote d.customfield_10411 ("http://" ++ jsa ++ "/browse/" ++ key),
                Event.closeWorkOrder d.customfield_10411
                  ("http://" ++ jsa ++ "/browse/" ++ key)]) ∧
    (env.store d.customfield_10411 = none →
      import_attachments env d.customfield_10411
        ("http://" ++ jsa ++ "/rest/api/2/issue/" ++ key ++ "/attachments") af = []) ∧
    pendingTrace env jsa af (d :: rest) =
      processRecord env jsa af d ++ pendingTrace env jsa af rest := by
  refine ⟨?_, ?_, rfl⟩
  · refine ⟨Event.logInfo ("Moving workorders to Jira:" ++ toString d.customfield_10411) ::
      Event.authenticate :: Event.createIssue d.customfield_10411 ::
      Event.logInfo ("Successfully migrated to Jira at: " ++
        ("http://" ++ jsa ++ "/rest/api/2/issue/" ++ key ++ "/attachments")) ::
      import_attachments env d.customfield_10411
        ("http://" ++ jsa ++ "/rest/api/2/issue/" ++ key ++ "/attachments") af, ?_⟩
    simp [processRecord, h]
  · intro hs
    simp [import_attachments, hs]

/-! ## Due-Date Resolver (`mainloop`, lines 417-436)

Dates are day numbers counted from an epoch Monday (day 0 is a Monday;
2024-01-01 is such a Monday, so 2024-01-05 is day 4 and 2024-01-08 is
day 7).  `weekday d = d % 7` matches Python's `date.weekday()`
(0 = Monday .. 6 = Sunday). -/

def weekday (d : Nat) : Nat := d % 7

/-- `pandas.tseries.offsets.BDay(n)` addition (`BusinessDay.apply`) for the
nonnegative offsets supplied by the `ticket_duetime_mapping_days`
configuration, as used at line 430: `value[2] + BDay(duedate_map[...])`.
Pandas computes `weeks = n // 5`, rolls an `n <= 0` weekend start forward
by one (`n += 1`), reduces `n` by `5 * weeks`, chooses `days` by the
roll-back / roll-forward / same-week / past-the-weekend case split, and
returns the date shifted by `7 * weeks + days`. -/
def pandasBDay (n : Nat) (d : Nat) : Int :=
  let wday := weekday d
  let weeks := n / 5
  let m := if n = 0 ∧ wday > 4 then n + 1 else n
  let n' := m - 5 * weeks
  let days : Int :=
    if n' = 0 ∧ wday > 4 then 4 - (wday : Int)
    else if wday > 4 then (7 - (wday : Int)) + ((n' : Int) - 1)
    else if wday + n' ≤ 4 then (n' : Int)
    else (n' : Int) + 2
  (d : Int) + 7 * (weeks : Int) + days

/-- The first business day (Monday..Friday) strictly after day `d`. -/
def nextBusinessDay (d : Nat) : Nat :=
  if weekday d < 4 then d + 1
  else if weekday d = 4 then d + 3
  else if weekday d = 5 then d + 2
  else d + 1

/-- Day `d` advanced by `n` business days: `n` iterations of
`nextBusinessDay`, so weekends are skipped. -/
def addBusinessDays : Nat → Nat → Nat
  | 0, d => d
  | n + 1, d => addBusinessDays n (nextBusinessDay d)

theorem addBusinessDays_of_weekday (n : Nat) : ∀ d : Nat, weekday d ≤ 4 →
    addBusinessDays n d = d + n + 2 * ((weekday d + n) / 5) := by
  induction n with
  | zero =>
      intro d h
      simp only [addBusinessDays, weekday] at *
      omega
  | succ k ih =>
      intro d h
      simp only [addBusinessDays]
      by_cases h4 : weekday d < 4
      · have hnext : nextBusinessDay d = d + 1 := by
          unfold nextBusinessDay
          simp [h4]
        rw [hnext, ih (d + 1) (by unfold weekday at *; omega)]
        unfold weekday at *
        omega
      · have heq : weekday d = 4 := by omega
        have hnext : nextBusinessDay d = d + 3 := by
          unfold nextBusinessDay
          simp [heq]
        rw [hnext, ih (d + 3) (by unfold weekday at *; omega)]
        unfold weekday at *
        omega

theorem pandasBDay_eq_addBusinessDays (n d : Nat) (h : 1 ≤ n) :
    pandasBDay n d = (addBusinessDays n d : Int) := by
  by_cases hw : weekday d ≤ 4
  · rw [addBusinessDays_of_weekday n d hw]
    simp only [pandasBDay]
    unfold weekday at *
    split_ifs <;> omega
  · obtain ⟨k, rfl⟩ : ∃ k, n = k + 1 := ⟨n - 1, by omega⟩
    simp only [addBusinessDays]
    by_cases h5 : weekday d = 5
    · have hnext : nextBusinessDay d = d + 2 := by
        unfold nextBusinessDay
        simp [h5]
      rw [hnext, addBusinessDays_of_weekday k (d + 2) (by unfold weekday at *; omega)]
      simp only [pandasBDay]
      unfold weekday at *
      rw [if_neg (by omega : ¬((k + 1 : Nat) = 0 ∧ d % 7 > 4))]
      split_ifs <;> omega
    · have h6 : weekday d = 6 := by unfold weekday at *; omega
      have hnext : nextBusinessDay d = d + 1 := by
        unfold nextBusinessDay
        simp [h6]
      rw [hnext, addBusinessDays_of_weekday k (d + 1) (by unfold weekday at *; omega)]
      simp only [pandasBDay]
      unfold weekday at *
      rw [if_neg (by omega : ¬((k + 1 : Nat) = 0 ∧ d % 7 > 4))]
      split_ifs <;> omega

/-- One JIRA ticket of the empty-due-date search result (`srq_ids_empty`,
lines 425-427): issue key, priority name, creation date (day number). -/
structure DueTask where
  key : String
  priority : String
  created : Nat
deriving DecidableEq

/-- One `requests.put` issued by the due-date loop (lines 431-436). -/
structure PutRequest where
  url : String
  authorization : String
  duedate : Int
deriving DecidableEq

/-- Python dict lookup `duedate_map[p]`; `none` models the `KeyError`. -/
def lookupDays : List (String × Nat) → String → Option Nat
  | [], _ => none
  | (k, v) :: rest, p => if k = p then some v else lookupDays rest p

/-- The due-date backfill loop of `mainloop` (lines 429-436): for each
ticket, look up the priority's business-day offset — an absent priority
raises `KeyError`, which nothing in `mainloop` catches, so the loop stops
there — and otherwise issue a `PUT` whose URL is built from the *global*
`config["jira_server_address"]` and whose Authorization header is the
literal `"Basic YXBpOlBhc3N3b3Jk"`; the `jira_authorization` and
`jira_server_address` parameters of `mainloop` are not consulted by this
loop body.  Returns the requests issued before any failure, and the
failure if one occurred. -/
def duedateSweepUpdates (config_jira_server_address : String)
    (jira_authorization jira_server_address : String)
    (duedate_map : List (String × Nat)) :
    List DueTask → List PutRequest × Option String
  | [] => ([], none)
  | t :: rest =>
      match lookupDays duedate_map t.priority with
      | none => ([], some ("KeyError: " ++ t.priority))
      | some n =>
          let req : PutRequest :=
            { url := "http://" ++ config_jira_server_address ++ "/rest/api/2/issue/" ++ t.key
              authorization := "Basic YXBpOlBhc3N3b3Jk"
              duedate := pandasBDay n t.created }
          let r := duedateSweepUpdates config_jira_server_address jira_authorization
              jira_server_address duedate_map rest
          (req :: r.1, r.2)

/-- Claim C7: the due date the sweep computes for a ticket is its creation
date advanced by the priority's configured offset counted in business days
with weekends skipped (`pandasBDay` coincides with iterating
`nextBusinessDay`); in particular creation day 4 (2024-01-05, a Friday)
with offset 1 yields day 7 (2024-01-08, the following Monday). -/
theorem duedate_is_business_day_offset (cfg a s : String) (m : List (String × Nat))
    (t : DueTask) (rest : List DueTask) (n : Nat)
    (hm : lookupDays m t.priority = some n) (hn : 1 ≤ n) :
    ((duedateSweepUpdates cfg a s m (t :: rest)).1.head?.map PutRequest.duedate) =
      some ((addBusinessDays n t.created : Nat) : Int) ∧
    pandasBDay 1 4 = 7 := by
  constructor
  · simp only [duedateSweepUpdates, hm]
    simp [pandasBDay_eq_addBusinessDays n t.created hn]
  · decide

theorem duedate_is_business_day_offset_witness :
    ((duedateSweepUpdates "jira.example.org" "authA" "jira.example.org" [("High", 1)]
        [⟨"SUP-101", "High", 4⟩]).1.head?.map PutRequest.duedate) =
      some ((addBusinessDays 1 4 : Nat) : Int) ∧
    pandasBDay 1 4 = 7 :=
  duedate_is_business_day_offset "jira.example.org" "authA" "jira.example.org"
    [("High", 1)] ⟨"SUP-101", "High", 4⟩ [] 1 (by decide) (by decide)

/-- Claim C8 counterexample: with offset table `{"High" ↦ 1}` and tickets
`SUP-1` (priority "Low", absent from the table) followed by `SUP-2`
(priority "High", present), the sweep stops at the lookup failure and
issues no update at all — in particular none for the still-unprocessed,
correctly mapped `SUP-2` — rather than skipping `SUP-1` and continuing. -/
theorem missing_priority_not_skipped_cex :
    duedateSweepUpdates "jira.example.org" "authA" "serverA" [("High", 1)]
        [⟨"SUP-1", "Low", 4⟩, ⟨"SUP-2", "High", 4⟩] =
      ([], some ("KeyError: " ++ "Low")) := by
  decide

/-- Claim C8 (amended): a ticket whose priority has no entry in the offset
table makes the sweep fail at that ticket with the uncaught lookup error —
that ticket and every later ticket receive no due-date update in that run —
and the sweep finishes without error exactly when every swept ticket's
priority is in the table. -/
theorem missing_priority_aborts_sweep (cfg a s : String) (m : List (String × Nat))
    (ts : List DueTask) :
    ((duedateSweepUpdates cfg a s m ts).2 = none ↔
      ∀ t ∈ ts, (lookupDays m t.priority).isSome) ∧
    (∀ t rest, lookupDays m t.priority = none →
      duedateSweepUpdates cfg a s m (t :: rest) =
        ([], some ("KeyError: " ++ t.priority))) := by
  constructor
  · induction ts with
    | nil => simp [duedateSweepUpdates]
    | cons t rest ih =>
        cases hm : lookupDays m t.priority with
        | none => simp [duedateSweepUpdates, hm, List.forall_mem_cons]
        | some n => simp [duedateSweepUpdates, hm, ih, List.forall_mem_cons]
  · intro t rest hm
    simp [duedateSweepUpdates, hm]

theorem missing_priority_aborts_sweep_witness :
    duedateSweepUpdates "jira.example.org" "authA" "serverA" [("High", 1)]
        [⟨"SUP-0", "Low", 4⟩] = ([], some ("KeyError: " ++ "Low")) :=
  (missing_priority_aborts_sweep "jira.example.org" "authA" "serverA" [("High", 1)] []).2
    ⟨"SUP-0", "Low", 4⟩ [] (by decide)

/-- Claim C10: every due-date update request carries the literal
Authorization header `"Basic YXBpOlBhc3N3b3Jk"` and a URL built from the
global configuration's server address, and the sweep's PUT requests are
identical across runs that differ only in the `jira_authorization` and
`jira_server_address` arguments passed to `mainloop`. -/
theorem duedate_update_constant_credentials (cfg a1 s1 a2 s2 : String)
    (m : List (String × Nat)) (ts : List DueTask) :
    duedateSweepUpdates cfg a1 s1 m ts = duedateSweepUpdates cfg a2 s2 m ts ∧
    ∀ req ∈ (duedateSweepUpdates cfg a1 s1 m ts).1,
      req.authorization = "Basic YXBpOlBhc3N3b3Jk" ∧
      ∃ t ∈ ts, req.url = "http://" ++ cfg ++ "/rest/api/2/issue/" ++ t.key := by
  induction ts with
  | nil => simp [duedateSweepUpdates]
  | cons t rest ih =>
      cases hm : lookupDays m t.priority with
      | none => simp [duedateSweepUpdates, hm]
      | some n =>
          constructor
          · simp only [duedateSweepUpdates, hm]
            rw [ih.1]
          · intro req hreq
            simp only [duedateSweepUpdates, hm, List.mem_cons] at hreq
            rcases hreq with rfl | hreq
            · exact ⟨rfl, t, List.mem_cons_self t rest, rfl⟩
            · obtain ⟨h1, t', ht', hurl⟩ := ih.2 req hreq
              exact ⟨h1, t', List.mem_cons_of_mem t ht', hurl⟩

/-! ## Concrete fixtures exercising the orchestrator theorems -/

/-- A concrete payload, as mapped from the end-to-end scenario record
(id 52204, priority "High", summary "printer jam"). -/
def sampleIssue : IssueFields :=
  { project_key := "SUP"
    summary := "printer jam"
    description := ""
    customfield_10411 := 52204
    customfield_10420 := "2017-07-11"
    duedate := "2017-07-20"
    customfield_11000 := "someone"
    customfield_11701 := "IT"
    customfield_11900 := (none, "")
    customfield_11800 := none
    customfield_10300_value := "Request"
    issuetype_name := "Incident Management"
    assignee_key := "mtam"
    assignee_name := "mtam"
    reporter_key := "api"
    reporter_name := "api"
    priority_name := "High" }

/-- An environment where issue creation succeeds with key "SUP-101" and
the attachment store is empty. -/
def okEnv : Env :=
  { create := fun _ => Except.ok "SUP-101"
    store := fun _ => none
    uploadResp := fun _ _ => ""
    lookupKey := fun _ => "SUP-101" }

/-- An environment where issue creation fails with an HTTP error. -/
def failEnv : Env :=
  { create := fun _ => Except.error "HTTP Error 400"
    store := fun _ => none
    uploadResp := fun _ _ => ""
    lookupKey := fun _ => "SUP-101" }

/-- An environment where creation succeeds, the attachment folder holds one
file, and the upload endpoint answers with an error text (which the
pipeline discards). -/
def attachEnv : Env :=
  { create := fun _ => Except.ok "SUP-101"
    store := fun _ => some ["scan.pdf"]
    uploadResp := fun _ _ => "413 Request Entity Too Large"
    lookupKey := fun _ => "SUP-101" }

theorem close_only_after_creation_witness :
    ((∃ r ∈ database_full_output_valid [sampleIssue]
          (invalid_ids (trackit_ids_trackit [sampleIssue]) (trackit_ids_jira [])),
        r.customfield_10411 = 52204 ∧ ∃ key, okEnv.create r = Except.ok key) ∨
      some (52204 : Int) ∈ ([] : List (Option Int))) ∧
    Event.closeWorkOrder sampleIssue.customfield_10411 "x" ∉
      processRecord failEnv "jira.example.org" "C:" sampleIssue :=
  ⟨(close_only_after_creation okEnv "jira.example.org" "C:" [sampleIssue] [] 52204
      ("http://" ++ "jira.example.org" ++ "/browse/" ++ "SUP-101")).1 (by decide),
   (close_only_after_creation failEnv "jira.example.org" "C:" [sampleIssue] [] 52204 "x").2
     sampleIssue "HTTP Error 400" rfl "x"⟩

/-- A second concrete payload (id 52205), queued after the failing
record. -/
def sampleIssue2 : IssueFields :=
  { sampleIssue with customfield_10411 := 52205, summary := "monitor flicker" }

/-- An environment where the submission of record 52204 fails with an
exception the dead `except HTTPError` clause cannot catch (here a
`requests` transport error; an HTTP-level failure raising `KeyError` at
line 383 behaves identically), while record 52205 would succeed. -/
def mixedEnv : Env :=
  { create := fun d =>
      if d.customfield_10411 = 52204
      then Except.error "requests.exceptions.ConnectionError"
      else Except.ok "SUP-102"
    store := fun _ => none
    uploadResp := fun _ _ => ""
    lookupKey := fun _ => "SUP-101" }

/-- Claim C3 (code bug): the claim matches the handler the source wrote at
lines 374-378 (log the failure with the legacy id, continue with the
remaining records), but that handler names `urllib.error.HTTPError`, which
the `requests`-based `post_request` never raises, so it is dead code.  At
the failing input — record 52204 whose submission fails, followed by the
well-formed record 52205 — the realizable loop emits only the
pre-submission events for 52204 and escapes with an uncaught exception: no
`logError` event at all (in particular none naming the legacy id), no
legacy-side effect for 52204 (no note, close or upload appears), and
record 52205 is never processed in that run. -/
theorem submission_failure_aborts_run :
    pendingLoopActual mixedEnv "jira.example.org" "C:" [sampleIssue, sampleIssue2] =
      ([Event.logInfo ("Moving workorders to Jira:" ++ toString (52204 : Int)),
        Event.authenticate,
        Event.createIssue 52204],
       some "requests.exceptions.ConnectionError") ∧
    (pendingLoopActual mixedEnv "jira.example.org" "C:" [sampleIssue, sampleIssue2]).1.all
      (fun e => match e with | Event.logError _ => false | _ => true) = true ∧
    Event.createIssue 52205 ∉
      (pendingLoopActual mixedEnv "jira.example.org" "C:" [sampleIssue, sampleIssue2]).1 := by
  refine ⟨?_, ?_, ?_⟩ <;> decide

theorem attachment_failures_never_block_closure_witness :
    (∃ pre, processRecord attachEnv "jira.example.org" "C:" sampleIssue =
        pre ++ [Event.addNote sampleIssue.customfield_10411
                  ("http://" ++ "jira.example.org" ++ "/browse/" ++ "SUP-101"),
                Event.closeWorkOrder sampleIssue.customfield_10411
                  ("http://" ++ "jira.example.org" ++ "/browse/" ++ "SUP-101")]) ∧
    import_attachments okEnv sampleIssue.customfield_10411
      ("http://" ++ "jira.example.org" ++ "/rest/api/2/issue/" ++ "SUP-101" ++
        "/attachments") "C:" = [] :=
  ⟨(attachment_failures_never_block_closure attachEnv "jira.example.org" "C:" sampleIssue
      "SUP-101" [] rfl).1,
   (attachment_failures_never_block_closure okEnv "jira.example.org" "C:" sampleIssue
      "SUP-101" [] rfl).2.1 rfl⟩

theorem duedate_update_constant_credentials_witness :
    (duedateSweepUpdates "global.example.org" "authA" "serverA" [("High", 1)]
        [⟨"SUP-9", "High", 4⟩] =
      duedateSweepUpdates "global.example.org" "authB" "serverB" [("High", 1)]
        [⟨"SUP-9", "High", 4⟩]) ∧
    (({ url := "http://" ++ "global.example.org" ++ "/rest/api/2/issue/" ++ "SUP-9"
        authorization := "Basic YXBpOlBhc3N3b3Jk"
        duedate := pandasBDay 1 4 } : PutRequest).authorization =
          "Basic YXBpOlBhc3N3b3Jk" ∧
      ∃ t ∈ [(⟨"SUP-9", "High", 4⟩ : DueTask)],
        ({ url := "http://" ++ "global.example.org" ++ "/rest/api/2/issue/" ++ "SUP-9"
           authorization := "Basic YXBpOlBhc3N3b3Jk"
           duedate := pandasBDay 1 4 } : PutRequest).url =
          "http://" ++ "global.example.org" ++ "/rest/api/2/issue/" ++ t.key) :=
  ⟨(duedate_update_constant_credentials "global.example.org" "authA" "serverA" "authB"
      "serverB" [("High", 1)] [⟨"SUP-9", "High", 4⟩]).1,
   (duedate_update_constant_credentials "global.example.org" "authA" "serverA" "authB"
      "serverB" [("High", 1)] [⟨"SUP-9", "High", 4⟩]).2 _ (by decide)⟩

end Migration
